import Mathlib

/-!
RPG entity-component manager: a verification development of `Manager.cpp`.

The per-frame systems of `src/RPG/Manager.cpp` are embedded as pure Lean functions.

Modelling conventions.

* C++ `int` is modelled by `Int`.  The definitions named after the source
  (`movePosition`, `animate`, ...) compute with exact integers; they agree with the program
  on every execution whose run-time arithmetic stays within `int`.  Their `Int32`
  counterparts (`movePositionInt32`, `animateInt32`, ...) apply `wrapInt32`, the
  two's-complement wrap-around of a 32-bit `int`, to each arithmetic result on run-time
  values, as a 32-bit build does; the statements that an overflow would decide are made
  about these, and `movePositionInt32_eq_movePosition`, `animateInt32_eq_animate` show
  that the two versions coincide when the results are representable.
* C++ `/` on `int` truncates towards zero: it is `Int.tdiv`.
* The compile-time constants come from headers (`Game.hpp`, `Components.hpp`) that are not
  part of the examined source; they are the fields of `Constants`, and every theorem holds
  for each choice of them that its hypotheses admit.
* An entity is a record of four optional components; `hasComponent<T>()` is `isSome` and
  `getComponent<T>()` is the value.
* A range-`for` over `entities` whose body only touches the current entity is `List.map`
  of the body.
* The SDL key codes of `ControlSystem` come from `SDL_keycode.h`; they are the fields of
  `KeyCodes`, and the one fact used about them is that the case labels of the `switch` are
  pairwise distinct.
* `DrawSystem` has the list of its `SDL_RenderCopy` calls as output; texture handles are
  the values of the external `TextureManager::loadTexture`, a parameter.
-/

namespace RPG

/-- The compile-time constants read by `Manager.cpp`: `Game::GAME_WIDTH`,
`Game::GAME_HEIGHT`, `Game::TILE_SIZE` and the `SpriteComponent::` cell sizes and sheet rows. -/
structure Constants where
  GAME_WIDTH : Int
  GAME_HEIGHT : Int
  TILE_SIZE : Int
  SPRITE_WIDTH : Int
  SPRITE_HEIGHT : Int
  INGAME_WIDTH : Int
  INGAME_HEIGHT : Int
  RIGHT_SPRITE : Int
  LEFT_SPRITE : Int
  DOWN_SPRITE : Int
  UP_SPRITE : Int
  deriving DecidableEq, Repr

/-- Fields of `PositionComponent` used by the manager. -/
structure PositionComponent where
  destX : Int
  destY : Int
  deltaX : Int
  deltaY : Int
  deriving DecidableEq, Repr

/-- Fields of `SpriteComponent` used by the manager. -/
structure SpriteComponent where
  sourceFile : String
  srcX : Int
  srcY : Int
  deriving DecidableEq, Repr

/-- Fields of `AnimationComponent` used by the manager. -/
structure AnimationComponent where
  frameCount : Int
  deltaFrame : Int
  deriving DecidableEq, Repr

/-- Fields of `ControlComponent` used by the manager. -/
structure ControlComponent where
  inControl : Bool
  deriving DecidableEq, Repr

/-- An entity: each component may be absent. -/
structure Entity where
  position : Option PositionComponent
  sprite : Option SpriteComponent
  animation : Option AnimationComponent
  control : Option ControlComponent
  deriving DecidableEq, Repr

/-- The tile map as the manager sees it: the answer of the static service
`TileMap::getTilesAtPosition("tilemaps/testlevel.tmx", position)` for each position, and the
member `collidableTiles`. -/
structure TileMap where
  getTilesAtPosition : Int → List Int
  collidableTiles : List Int

/-- `Manager::getPositionFromCoords`. -/
def getPositionFromCoords (c : Constants) (x y : Int) : Int :=
  let positionX := Int.tdiv x c.TILE_SIZE
  let positionY := Int.tdiv y c.TILE_SIZE
  (positionX + 1) + (positionY * (Int.tdiv c.GAME_WIDTH c.TILE_SIZE))

/-- `Manager::hasCollidableAtPosition`, called with `tilemap->collidableTiles`: the loop
over the tiles returned for `position` answers true at the first one that `std::find`
locates in `collidableTiles`, false when there is none. -/
def hasCollidableAtPosition (tilemap : TileMap) (position : Int) : Bool :=
  (tilemap.getTilesAtPosition position).any (fun i => tilemap.collidableTiles.contains i)

/-- `Manager::CollisionSystem`.  The first component is the returned `bool`; the second is
the list of positions for which the tile map was queried, in the order of the queries. -/
def CollisionSystem (c : Constants) (tilemap : TileMap) (positionCom : PositionComponent) :
    Bool × List Int :=
  if positionCom.destX < 0 then (true, [])
  else if positionCom.destY < 0 then (true, [])
  else if positionCom.destX > c.GAME_WIDTH - c.INGAME_WIDTH then (true, [])
  else if positionCom.destY > c.GAME_HEIGHT - c.INGAME_HEIGHT then (true, [])
  else
    let xCoord := positionCom.destX
    let yCoord := positionCom.destY + Int.tdiv c.INGAME_HEIGHT 2
    -- Top left corner
    let p1 := getPositionFromCoords c xCoord yCoord
    if hasCollidableAtPosition tilemap p1 then (true, [p1])
    else
      -- Top right corner
      let p2 := getPositionFromCoords c (xCoord + (c.INGAME_WIDTH - 1)) yCoord
      if hasCollidableAtPosition tilemap p2 then (true, [p1, p2])
      else
        -- Bottom left corner
        let p3 := getPositionFromCoords c xCoord (yCoord + (c.INGAME_WIDTH - 1))
        if hasCollidableAtPosition tilemap p3 then (true, [p1, p2, p3])
        else
          -- Bottom right corner
          let p4 := getPositionFromCoords c (xCoord + (c.INGAME_WIDTH - 1))
            (yCoord + (c.INGAME_WIDTH - 1))
          if hasCollidableAtPosition tilemap p4 then (true, [p1, p2, p3, p4])
          else (false, [p1, p2, p3, p4])

/-- The four points handed to `getPositionFromCoords` by `CollisionSystem`, in source
order: top left, top right, bottom left, bottom right. -/
def sampledCorners (c : Constants) (positionCom : PositionComponent) : List (Int × Int) :=
  let xCoord := positionCom.destX
  let yCoord := positionCom.destY + Int.tdiv c.INGAME_HEIGHT 2
  [ (xCoord, yCoord),
    (xCoord + (c.INGAME_WIDTH - 1), yCoord),
    (xCoord, yCoord + (c.INGAME_WIDTH - 1)),
    (xCoord + (c.INGAME_WIDTH - 1), yCoord + (c.INGAME_WIDTH - 1)) ]

/-- Loop body of `Manager::PositionSystem` on a position component. -/
def movePosition (c : Constants) (tilemap : TileMap) (positionCom : PositionComponent) :
    PositionComponent :=
  -- Store original values
  let originalX := positionCom.destX
  let originalY := positionCom.destY
  -- Attempt to move
  let moved : PositionComponent :=
    { positionCom with
      destX := positionCom.destX + positionCom.deltaX * 2
      destY := positionCom.destY + positionCom.deltaY * 2 }
  -- If there's a collision the move fails
  if (CollisionSystem c tilemap moved).1 then
    { moved with destX := originalX, destY := originalY }
  else moved

/-- One iteration of the loop of `Manager::PositionSystem`. -/
def positionStep (c : Constants) (tilemap : TileMap) (e : Entity) : Entity :=
  match e.position with
  | none => e
  | some positionCom => { e with position := some (movePosition c tilemap positionCom) }

/-- `Manager::PositionSystem`. -/
def PositionSystem (c : Constants) (tilemap : TileMap) (entities : List Entity) :
    List Entity :=
  entities.map (positionStep c tilemap)

/-- Loop body of `Manager::AnimationSystem` on the three components it reads and writes. -/
def animate (c : Constants) (positionCom : PositionComponent) (spriteCom : SpriteComponent)
    (animationCom : AnimationComponent) : SpriteComponent × AnimationComponent :=
  -- If entity is standing still, use the middle sprite
  let (spriteCom, animationCom) :=
    if positionCom.deltaX = 0 ∧ positionCom.deltaY = 0 then
      ({ spriteCom with srcX := c.SPRITE_WIDTH * 1 },
       { animationCom with deltaFrame := 1, frameCount := 0 })
    else (spriteCom, animationCom)
  -- Direction
  let spriteCom :=
    if positionCom.deltaX = 1 then { spriteCom with srcY := c.RIGHT_SPRITE }
    else if positionCom.deltaX = -1 then { spriteCom with srcY := c.LEFT_SPRITE }
    else if positionCom.deltaY = 1 then { spriteCom with srcY := c.DOWN_SPRITE }
    else if positionCom.deltaY = -1 then { spriteCom with srcY := c.UP_SPRITE }
    else spriteCom
  -- Animation frame calculation
  if animationCom.frameCount = 9 then
    let spriteCom :=
      { spriteCom with srcX := spriteCom.srcX + c.SPRITE_WIDTH * animationCom.deltaFrame }
    let animationCom :=
      if spriteCom.srcX = c.SPRITE_WIDTH * 2 then { animationCom with deltaFrame := -1 }
      else if spriteCom.srcX = 0 then { animationCom with deltaFrame := 1 }
      else animationCom
    (spriteCom, { animationCom with frameCount := 0 })
  else
    (spriteCom, { animationCom with frameCount := animationCom.frameCount + 1 })

/-- One iteration of the loop of `Manager::AnimationSystem`. -/
def animationStep (c : Constants) (e : Entity) : Entity :=
  match e.position, e.sprite, e.animation with
  | some positionCom, some spriteCom, some animationCom =>
    let r := animate c positionCom spriteCom animationCom
    { e with sprite := some r.1, animation := some r.2 }
  | _, _, _ => e

/-- `Manager::AnimationSystem`. -/
def AnimationSystem (c : Constants) (entities : List Entity) : List Entity :=
  entities.map (animationStep c)

/-- The position component of the `i`-th entity, when both exist. -/
def positionAt (entities : List Entity) (i : Nat) : Option PositionComponent :=
  entities[i]?.bind Entity.position

/-- The sprite component of the `i`-th entity, when both exist. -/
def spriteAt (entities : List Entity) (i : Nat) : Option SpriteComponent :=
  entities[i]?.bind Entity.sprite

/-- The animation component of the `i`-th entity, when both exist. -/
def animationAt (entities : List Entity) (i : Nat) : Option AnimationComponent :=
  entities[i]?.bind Entity.animation

/-- The frame predicate of the animation: srcX is one of 0, SPRITE_WIDTH, 2*SPRITE_WIDTH,
deltaFrame is 1 or -1, srcX = 0 forces deltaFrame = 1 and srcX = 2*SPRITE_WIDTH forces
deltaFrame = -1. -/
def FrameInv (c : Constants) (s : SpriteComponent) (a : AnimationComponent) : Prop :=
  (s.srcX = 0 ∨ s.srcX = c.SPRITE_WIDTH ∨ s.srcX = 2 * c.SPRITE_WIDTH) ∧
  (a.deltaFrame = 1 ∨ a.deltaFrame = -1) ∧
  (s.srcX = 0 → a.deltaFrame = 1) ∧
  (s.srcX = 2 * c.SPRITE_WIDTH → a.deltaFrame = -1)

instance (c : Constants) (s : SpriteComponent) (a : AnimationComponent) :
    Decidable (FrameInv c s a) := by
  unfold FrameInv
  infer_instance

/-- A sequence of `AnimationSystem` calls seen from one entity that keeps its three
components: the list holds the position component the entity has at each call (other
systems may change it between calls), and the loop body is applied once per call. -/
def animateRun (c : Constants) :
    List PositionComponent → SpriteComponent × AnimationComponent →
      SpriteComponent × AnimationComponent
  | [], st => st
  | pos :: rest, st => animateRun c rest (animate c pos st.1 st.2)

/-- The position component handed to `CollisionSystem` by `PositionSystem`: both axes
advanced by twice the velocity. -/
def tentative (positionCom : PositionComponent) : PositionComponent :=
  { positionCom with
    destX := positionCom.destX + positionCom.deltaX * 2
    destY := positionCom.destY + positionCom.deltaY * 2 }

/-- The SDL key codes that label the cases of the `switch` in `ControlSystem`; their
values come from `SDL_keycode.h`, outside the examined source. -/
structure KeyCodes where
  SDLK_w : Int
  SDLK_UP : Int
  SDLK_a : Int
  SDLK_LEFT : Int
  SDLK_s : Int
  SDLK_DOWN : Int
  SDLK_d : Int
  SDLK_RIGHT : Int
  deriving DecidableEq, Repr

/-- The eight case labels of the `switch` in source order.  C++ requires the labels of one
`switch` to be pairwise distinct, so a compiled `Manager.cpp` has `caseLabels.Nodup`. -/
def KeyCodes.caseLabels (k : KeyCodes) : List Int :=
  [k.SDLK_w, k.SDLK_UP, k.SDLK_a, k.SDLK_LEFT, k.SDLK_s, k.SDLK_DOWN, k.SDLK_d, k.SDLK_RIGHT]

/-- Loop body of `Manager::ControlSystem` on the position component of an entity in
control: the velocity is reset, then the `switch` on the key sets one axis. -/
def steer (k : KeyCodes) (keyPressed : Int) (positionCom : PositionComponent) :
    PositionComponent :=
  -- Reset direction
  let positionCom := { positionCom with deltaX := 0, deltaY := 0 }
  if keyPressed = k.SDLK_w ∨ keyPressed = k.SDLK_UP then
    { positionCom with deltaY := -1 }
  else if keyPressed = k.SDLK_a ∨ keyPressed = k.SDLK_LEFT then
    { positionCom with deltaX := -1 }
  else if keyPressed = k.SDLK_s ∨ keyPressed = k.SDLK_DOWN then
    { positionCom with deltaY := 1 }
  else if keyPressed = k.SDLK_d ∨ keyPressed = k.SDLK_RIGHT then
    { positionCom with deltaX := 1 }
  else positionCom

/-- One iteration of the loop of `Manager::ControlSystem`. -/
def controlStep (k : KeyCodes) (keyPressed : Int) (e : Entity) : Entity :=
  match e.position, e.control with
  | some positionCom, some controlCom =>
    if controlCom.inControl then { e with position := some (steer k keyPressed positionCom) }
    else e
  | _, _ => e

/-- `Manager::ControlSystem`. -/
def ControlSystem (k : KeyCodes) (keyPressed : Int) (entities : List Entity) : List Entity :=
  entities.map (controlStep k keyPressed)

/-- The control component of the `i`-th entity, when both exist. -/
def controlAt (entities : List Entity) (i : Nat) : Option ControlComponent :=
  entities[i]?.bind Entity.control

/-- An `SDL_Rect` as `DrawSystem` fills it. -/
structure SDL_Rect where
  x : Int
  y : Int
  w : Int
  h : Int
  deriving DecidableEq, Repr

/-- One `SDL_RenderCopy(Game::renderer, objTexture, &srcRect, &destRect)` call; `τ` is the
type of texture handles. -/
structure RenderCopy (τ : Type) where
  texture : τ
  srcRect : SDL_Rect
  destRect : SDL_Rect
  deriving DecidableEq, Repr

/-- Loop body of `Manager::DrawSystem`: the draw calls submitted for one entity.
`loadTexture` is the external `TextureManager::loadTexture`. -/
def drawStep {τ : Type} (c : Constants) (loadTexture : String → τ) (e : Entity) :
    List (RenderCopy τ) :=
  match e.position, e.sprite with
  | some positionCom, some spriteCom =>
    let objTexture := loadTexture spriteCom.sourceFile
    let srcRect : SDL_Rect :=
      { h := c.SPRITE_HEIGHT, w := c.SPRITE_WIDTH, x := spriteCom.srcX, y := spriteCom.srcY }
    let destRect : SDL_Rect :=
      { h := c.INGAME_HEIGHT, w := c.INGAME_WIDTH, x := positionCom.destX,
        y := positionCom.destY }
    [{ texture := objTexture, srcRect := srcRect, destRect := destRect }]
  | _, _ => []

/-- `Manager::DrawSystem`: the entities after the call (the loop writes to none of them)
and the draw calls submitted, in the order of submission. -/
def DrawSystem {τ : Type} (c : Constants) (loadTexture : String → τ) :
    List Entity → List Entity × List (RenderCopy τ)
  | [] => ([], [])
  | e :: rest =>
    (e :: (DrawSystem c loadTexture rest).1,
      drawStep c loadTexture e ++ (DrawSystem c loadTexture rest).2)

/-- The draw call the render system is to submit for an entity: none unless the entity has
both a position and a sprite component, else source rectangle
(srcX, srcY, SPRITE_WIDTH, SPRITE_HEIGHT) and destination rectangle
(destX, destY, INGAME_WIDTH, INGAME_HEIGHT). -/
def expectedDraw {τ : Type} (c : Constants) (loadTexture : String → τ) (e : Entity) :
    Option (RenderCopy τ) :=
  e.position.bind fun p =>
    e.sprite.map fun s =>
      { texture := loadTexture s.sourceFile
        srcRect := { x := s.srcX, y := s.srcY, w := c.SPRITE_WIDTH, h := c.SPRITE_HEIGHT }
        destRect := { x := p.destX, y := p.destY, w := c.INGAME_WIDTH, h := c.INGAME_HEIGHT } }

/-- The value a 32-bit two's-complement `int` holds for the exact result `z`: `z` itself
when -2^31 <= z < 2^31, else `z` reduced modulo 2^32 into that range. -/
def wrapInt32 (z : Int) : Int :=
  (z + 2147483648) % 4294967296 - 2147483648

/-- Representable as a 32-bit `int`. -/
def IsInt32 (z : Int) : Prop :=
  -2147483648 ≤ z ∧ z ≤ 2147483647

instance (z : Int) : Decidable (IsInt32 z) := by
  unfold IsInt32
  infer_instance

/-- The two assignments `destX += deltaX * 2; destY += deltaY * 2;` of `PositionSystem` in
32-bit `int` arithmetic. -/
def tentativeInt32 (positionCom : PositionComponent) : PositionComponent :=
  { positionCom with
    destX := wrapInt32 (positionCom.destX + wrapInt32 (positionCom.deltaX * 2))
    destY := wrapInt32 (positionCom.destY + wrapInt32 (positionCom.deltaY * 2)) }

/-- Loop body of `Manager::PositionSystem` on a position component, in 32-bit `int`
arithmetic. -/
def movePositionInt32 (c : Constants) (tilemap : TileMap) (positionCom : PositionComponent) :
    PositionComponent :=
  -- Store original values
  let originalX := positionCom.destX
  let originalY := positionCom.destY
  -- Attempt to move
  let moved : PositionComponent :=
    { positionCom with
      destX := wrapInt32 (positionCom.destX + wrapInt32 (positionCom.deltaX * 2))
      destY := wrapInt32 (positionCom.destY + wrapInt32 (positionCom.deltaY * 2)) }
  -- If there's a collision the move fails
  if (CollisionSystem c tilemap moved).1 then
    { moved with destX := originalX, destY := originalY }
  else moved

/-- Loop body of `Manager::AnimationSystem`, in 32-bit `int` arithmetic: the frame advance
`srcX += SPRITE_WIDTH * deltaFrame` and the increment `frameCount++` wrap around. -/
def animateInt32 (c : Constants) (positionCom : PositionComponent)
    (spriteCom : SpriteComponent) (animationCom : AnimationComponent) :
    SpriteComponent × AnimationComponent :=
  -- If entity is standing still, use the middle sprite
  let (spriteCom, animationCom) :=
    if positionCom.deltaX = 0 ∧ positionCom.deltaY = 0 then
      ({ spriteCom with srcX := c.SPRITE_WIDTH * 1 },
       { animationCom with deltaFrame := 1, frameCount := 0 })
    else (spriteCom, animationCom)
  -- Direction
  let spriteCom :=
    if positionCom.deltaX = 1 then { spriteCom with srcY := c.RIGHT_SPRITE }
    else if positionCom.deltaX = -1 then { spriteCom with srcY := c.LEFT_SPRITE }
    else if positionCom.deltaY = 1 then { spriteCom with srcY := c.DOWN_SPRITE }
    else if positionCom.deltaY = -1 then { spriteCom with srcY := c.UP_SPRITE }
    else spriteCom
  -- Animation frame calculation
  if animationCom.frameCount = 9 then
    let spriteCom :=
      { spriteCom with
        srcX := wrapInt32 (spriteCom.srcX + wrapInt32 (c.SPRITE_WIDTH * animationCom.deltaFrame)) }
    let animationCom :=
      if spriteCom.srcX = c.SPRITE_WIDTH * 2 then { animationCom with deltaFrame := -1 }
      else if spriteCom.srcX = 0 then { animationCom with deltaFrame := 1 }
      else animationCom
    (spriteCom, { animationCom with frameCount := 0 })
  else
    (spriteCom, { animationCom with frameCount := wrapInt32 (animationCom.frameCount + 1) })

theorem movePosition_eq (c : Constants) (tilemap : TileMap) (p : PositionComponent) :
    movePosition c tilemap p =
      if (CollisionSystem c tilemap (tentative p)).1 = true then p else tentative p := by
  unfold movePosition tentative
  rfl

theorem positionAt_PositionSystem (c : Constants) (tilemap : TileMap) (es : List Entity)
    (i : Nat) :
    positionAt (PositionSystem c tilemap es) i =
      (positionAt es i).map (movePosition c tilemap) := by
  unfold positionAt PositionSystem
  rw [List.getElem?_map]
  cases es[i]? with
  | none => rfl
  | some e =>
    cases hp : e.position with
    | none => simp [positionStep, hp]
    | some p => simp [positionStep, hp]

theorem collisionSystem_of_outOfBounds (c : Constants) (tilemap : TileMap)
    (p : PositionComponent)
    (h : p.destX < 0 ∨ p.destY < 0 ∨ p.destX + c.INGAME_WIDTH > c.GAME_WIDTH ∨
      p.destY + c.INGAME_HEIGHT > c.GAME_HEIGHT) :
    CollisionSystem c tilemap p = (true, []) := by
  unfold CollisionSystem
  split_ifs <;> first | rfl | omega

theorem inBounds_of_collisionSystem_false (c : Constants) (tilemap : TileMap)
    (p : PositionComponent) (h : (CollisionSystem c tilemap p).1 = false) :
    0 ≤ p.destX ∧ p.destX ≤ c.GAME_WIDTH - c.INGAME_WIDTH ∧
      0 ≤ p.destY ∧ p.destY ≤ c.GAME_HEIGHT - c.INGAME_HEIGHT := by
  by_contra hn
  have hoob : p.destX < 0 ∨ p.destY < 0 ∨ p.destX + c.INGAME_WIDTH > c.GAME_WIDTH ∨
      p.destY + c.INGAME_HEIGHT > c.GAME_HEIGHT := by omega
  rw [collisionSystem_of_outOfBounds c tilemap p hoob] at h
  exact Bool.noConfusion h

theorem iterate_PositionSystem_fixed (c : Constants) (tilemap : TileMap) (i : Nat)
    (p : PositionComponent) (hfix : movePosition c tilemap p = p) (n : Nat) :
    ∀ es : List Entity, positionAt es i = some p →
      positionAt ((PositionSystem c tilemap)^[n] es) i = some p := by
  induction n with
  | zero => intro es h; exact h
  | succ k ih =>
    intro es h
    rw [Function.iterate_succ_apply]
    apply ih
    rw [positionAt_PositionSystem, h, Option.map_some', hfix]

theorem wrapInt32_of_isInt32 (z : Int) (h : IsInt32 z) : wrapInt32 z = z := by
  unfold IsInt32 at h
  unfold wrapInt32
  omega

theorem wrapInt32_add_wrapInt32 (a b : Int) :
    wrapInt32 (a + wrapInt32 b) = wrapInt32 (a + b) := by
  unfold wrapInt32
  omega

theorem tentativeInt32_dest (p : PositionComponent) :
    (tentativeInt32 p).destX = wrapInt32 (p.destX + 2 * p.deltaX) ∧
      (tentativeInt32 p).destY = wrapInt32 (p.destY + 2 * p.deltaY) := by
  unfold tentativeInt32
  dsimp only
  rw [wrapInt32_add_wrapInt32, wrapInt32_add_wrapInt32, mul_comm p.deltaX 2,
    mul_comm p.deltaY 2]
  exact ⟨rfl, rfl⟩

theorem movePositionInt32_eq (c : Constants) (tilemap : TileMap) (p : PositionComponent) :
    movePositionInt32 c tilemap p =
      if (CollisionSystem c tilemap (tentativeInt32 p)).1 = true then p
      else tentativeInt32 p := by
  unfold movePositionInt32 tentativeInt32
  rfl

theorem movePositionInt32_eq_movePosition (c : Constants) (tilemap : TileMap)
    (p : PositionComponent) (hx : IsInt32 (p.destX + 2 * p.deltaX))
    (hy : IsInt32 (p.destY + 2 * p.deltaY)) :
    movePositionInt32 c tilemap p = movePosition c tilemap p := by
  have ht : tentativeInt32 p = tentative p := by
    obtain ⟨ex, ey⟩ := tentativeInt32_dest p
    rw [wrapInt32_of_isInt32 _ hx] at ex
    rw [wrapInt32_of_isInt32 _ hy] at ey
    cases p with
    | mk x y dx dy =>
      simp only [tentativeInt32, tentative] at ex ey ⊢
      rw [ex, ey, mul_comm dx 2, mul_comm dy 2]
  rw [movePositionInt32_eq, movePosition_eq, ht]

/-- C2: with velocity (0, 0) the position component of an entity is the same after any
number `n` of consecutive `PositionSystem` calls, for every tile map and every current
position (no bound or tile condition on it); in particular `destX` and `destY` are
unchanged. -/
theorem C2_zero_velocity_never_moves (c : Constants) (tilemap : TileMap) (es : List Entity)
    (i : Nat) (p : PositionComponent) (h : positionAt es i = some p)
    (hdx : p.deltaX = 0) (hdy : p.deltaY = 0) (n : Nat) :
    ∃ q, positionAt ((PositionSystem c tilemap)^[n] es) i = some q ∧
      q.destX = p.destX ∧ q.destY = p.destY ∧ q = p := by
  have ht : tentative p = p := by
    cases p with
    | mk x y dx dy =>
      simp only at hdx hdy
      subst hdx hdy
      simp [tentative]
  have hfix : movePosition c tilemap p = p := by
    rw [movePosition_eq, ht]
    simp
  exact ⟨p, iterate_PositionSystem_fixed c tilemap i p hfix n es h, rfl, rfl, rfl⟩

theorem C2_zero_velocity_never_moves_witness :
    positionAt [⟨some ⟨-5, 900, 0, 0⟩, none, none, none⟩] 0 = some ⟨-5, 900, 0, 0⟩ ∧
    (⟨-5, 900, 0, 0⟩ : PositionComponent).deltaX = 0 ∧
    (⟨-5, 900, 0, 0⟩ : PositionComponent).deltaY = 0 ∧
    ∃ q, positionAt ((PositionSystem ⟨800, 640, 32, 32, 32, 32, 64, 64, 32, 0, 96⟩
        ⟨fun _ => [7], [7]⟩)^[3] [⟨some ⟨-5, 900, 0, 0⟩, none, none, none⟩]) 0 = some q ∧
      q.destX = -5 ∧ q.destY = 900 ∧ q = ⟨-5, 900, 0, 0⟩ :=
  ⟨rfl, rfl, rfl, C2_zero_velocity_never_moves ⟨800, 640, 32, 32, 32, 32, 64, 64, 32, 0, 96⟩
    ⟨fun _ => [7], [7]⟩ [⟨some ⟨-5, 900, 0, 0⟩, none, none, none⟩] 0 ⟨-5, 900, 0, 0⟩
    rfl rfl rfl 3⟩

/-- C4: being inside the map is an invariant of `PositionSystem`: if
0 <= destX <= GAME_WIDTH - INGAME_WIDTH and 0 <= destY <= GAME_HEIGHT - INGAME_HEIGHT hold
before the call, they hold after it, for every tile map and every velocity. -/
theorem C4_inside_map_invariant (c : Constants) (tilemap : TileMap) (es : List Entity)
    (i : Nat) (p : PositionComponent) (h : positionAt es i = some p)
    (hx0 : 0 ≤ p.destX) (hx1 : p.destX ≤ c.GAME_WIDTH - c.INGAME_WIDTH)
    (hy0 : 0 ≤ p.destY) (hy1 : p.destY ≤ c.GAME_HEIGHT - c.INGAME_HEIGHT) :
    ∃ q, positionAt (PositionSystem c tilemap es) i = some q ∧
      0 ≤ q.destX ∧ q.destX ≤ c.GAME_WIDTH - c.INGAME_WIDTH ∧
      0 ≤ q.destY ∧ q.destY ≤ c.GAME_HEIGHT - c.INGAME_HEIGHT := by
  refine ⟨movePosition c tilemap p, ?_, ?_⟩
  · rw [positionAt_PositionSystem, h, Option.map_some']
  · rw [movePosition_eq]
    cases hc : (CollisionSystem c tilemap (tentative p)).1 with
    | true => simpa using ⟨hx0, hx1, hy0, hy1⟩
    | false => simpa using inBounds_of_collisionSystem_false c tilemap (tentative p) hc

theorem C4_inside_map_invariant_witness :
    positionAt [⟨some ⟨766, 10, 1, -1⟩, none, none, none⟩] 0 = some ⟨766, 10, 1, -1⟩ ∧
    ((0 : Int) ≤ 766 ∧ (766 : Int) ≤ 800 - 32 ∧ (0 : Int) ≤ 10 ∧ (10 : Int) ≤ 640 - 64) ∧
    ∃ q, positionAt (PositionSystem ⟨800, 640, 32, 32, 32, 32, 64, 64, 32, 0, 96⟩
        ⟨fun _ => [1], [7]⟩ [⟨some ⟨766, 10, 1, -1⟩, none, none, none⟩]) 0 = some q ∧
      0 ≤ q.destX ∧ q.destX ≤ 800 - 32 ∧ 0 ≤ q.destY ∧ q.destY ≤ 640 - 64 :=
  ⟨rfl, by decide, C4_inside_map_invariant ⟨800, 640, 32, 32, 32, 32, 64, 64, 32, 0, 96⟩
    ⟨fun _ => [1], [7]⟩ [⟨some ⟨766, 10, 1, -1⟩, none, none, none⟩] 0 ⟨766, 10, 1, -1⟩
    rfl (by decide) (by decide) (by decide) (by decide)⟩

/-! Collision resolver -/

/-- C5: `CollisionSystem` returns true with no tile-map query made exactly when the
position is out of bounds (destX < 0, destY < 0, destX + INGAME_WIDTH > GAME_WIDTH or
destY + INGAME_HEIGHT > GAME_HEIGHT), whatever the tile map; the tests of the code,
destX > GAME_WIDTH - INGAME_WIDTH and destY > GAME_HEIGHT - INGAME_HEIGHT, are equivalent
to the last two inequalities. -/
theorem C5_bounds_stage_rejects_exactly_out_of_bounds (c : Constants) (tilemap : TileMap)
    (p : PositionComponent) :
    (CollisionSystem c tilemap p = (true, []) ↔
      (p.destX < 0 ∨ p.destY < 0 ∨ p.destX + c.INGAME_WIDTH > c.GAME_WIDTH ∨
        p.destY + c.INGAME_HEIGHT > c.GAME_HEIGHT)) ∧
    (p.destX > c.GAME_WIDTH - c.INGAME_WIDTH ↔ p.destX + c.INGAME_WIDTH > c.GAME_WIDTH) ∧
    (p.destY > c.GAME_HEIGHT - c.INGAME_HEIGHT ↔
      p.destY + c.INGAME_HEIGHT > c.GAME_HEIGHT) := by
  refine ⟨⟨?_, collisionSystem_of_outOfBounds c tilemap p⟩, by omega, by omega⟩
  intro h
  by_contra hn
  unfold CollisionSystem at h
  rw [if_neg (by omega), if_neg (by omega), if_neg (by omega), if_neg (by omega)] at h
  dsimp only at h
  split_ifs at h <;> simp at h

theorem hasCollidableAtPosition_iff (tilemap : TileMap) (position : Int) :
    hasCollidableAtPosition tilemap position = true ↔
      ∃ t ∈ tilemap.getTilesAtPosition position, t ∈ tilemap.collidableTiles := by
  unfold hasCollidableAtPosition
  simp [List.any_eq_true]

theorem collisionSystem_inBounds (c : Constants) (tilemap : TileMap) (p : PositionComponent)
    (hx0 : 0 ≤ p.destX) (hx1 : p.destX ≤ c.GAME_WIDTH - c.INGAME_WIDTH)
    (hy0 : 0 ≤ p.destY) (hy1 : p.destY ≤ c.GAME_HEIGHT - c.INGAME_HEIGHT) :
    (CollisionSystem c tilemap p).1 =
        (sampledCorners c p).any
          (fun pt => hasCollidableAtPosition tilemap (getPositionFromCoords c pt.1 pt.2)) ∧
      (CollisionSystem c tilemap p).2 <+:
        (sampledCorners c p).map (fun pt => getPositionFromCoords c pt.1 pt.2) ∧
      (∀ q ∈ (CollisionSystem c tilemap p).2.dropLast,
        hasCollidableAtPosition tilemap q = false) := by
  unfold CollisionSystem sampledCorners
  rw [if_neg (by omega), if_neg (by omega), if_neg (by omega), if_neg (by omega)]
  dsimp only
  split_ifs with h1 h2 h3 h4 <;>
    simp_all [List.prefix_iff_eq_take]

/-- C6: for an in-bounds position `CollisionSystem` returns true exactly when one of the
four sampled corner points maps through `getPositionFromCoords` to a position where the
tile map returns some tile id of the collidable set; it returns false when the collidable
set is empty; examining the corners in any other order gives the same result; and the
queries made are an initial segment of the four corner positions in which no position
before the last one has a collidable tile (the first colliding corner ends the search). -/
theorem C6_collision_iff_some_corner_collidable (c : Constants) (tilemap : TileMap)
    (p : PositionComponent)
    (hx0 : 0 ≤ p.destX) (hx1 : p.destX ≤ c.GAME_WIDTH - c.INGAME_WIDTH)
    (hy0 : 0 ≤ p.destY) (hy1 : p.destY ≤ c.GAME_HEIGHT - c.INGAME_HEIGHT) :
    ((CollisionSystem c tilemap p).1 = true ↔
      ∃ pt ∈ sampledCorners c p,
        ∃ t ∈ tilemap.getTilesAtPosition (getPositionFromCoords c pt.1 pt.2),
          t ∈ tilemap.collidableTiles) ∧
    (tilemap.collidableTiles = [] → (CollisionSystem c tilemap p).1 = false) ∧
    (∀ l : List (Int × Int), l.Perm (sampledCorners c p) →
      l.any (fun pt => hasCollidableAtPosition tilemap (getPositionFromCoords c pt.1 pt.2)) =
        (CollisionSystem c tilemap p).1) ∧
    ((CollisionSystem c tilemap p).2 <+:
      (sampledCorners c p).map (fun pt => getPositionFromCoords c pt.1 pt.2)) ∧
    (∀ q ∈ (CollisionSystem c tilemap p).2.dropLast,
      hasCollidableAtPosition tilemap q = false) := by
  obtain ⟨hany, hpre, hfirst⟩ := collisionSystem_inBounds c tilemap p hx0 hx1 hy0 hy1
  have hiff : (CollisionSystem c tilemap p).1 = true ↔
      ∃ pt ∈ sampledCorners c p,
        ∃ t ∈ tilemap.getTilesAtPosition (getPositionFromCoords c pt.1 pt.2),
          t ∈ tilemap.collidableTiles := by
    rw [hany, List.any_eq_true]
    constructor
    · rintro ⟨pt, hpt, hcol⟩
      exact ⟨pt, hpt, (hasCollidableAtPosition_iff tilemap _).1 hcol⟩
    · rintro ⟨pt, hpt, hcol⟩
      exact ⟨pt, hpt, (hasCollidableAtPosition_iff tilemap _).2 hcol⟩
  refine ⟨hiff, ?_, ?_, hpre, hfirst⟩
  · intro hempty
    cases hres : (CollisionSystem c tilemap p).1 with
    | false => rfl
    | true =>
      obtain ⟨pt, _, t, _, ht⟩ := hiff.1 hres
      rw [hempty] at ht
      exact absurd ht (List.not_mem_nil t)
  · intro l hl
    rw [hany, Bool.eq_iff_iff, List.any_eq_true, List.any_eq_true]
    constructor
    · rintro ⟨pt, hpt, hcol⟩
      exact ⟨pt, hl.mem_iff.1 hpt, hcol⟩
    · rintro ⟨pt, hpt, hcol⟩
      exact ⟨pt, hl.mem_iff.2 hpt, hcol⟩

theorem C6_collision_iff_some_corner_collidable_witness :
    ((0 : Int) ≤ 10 ∧ (10 : Int) ≤ 800 - 32 ∧ (0 : Int) ≤ 10 ∧ (10 : Int) ≤ 640 - 64) ∧
    ((CollisionSystem ⟨800, 640, 32, 32, 32, 32, 64, 64, 32, 0, 96⟩
        ⟨fun q => if q = 52 then [3, 7] else [1], [7]⟩ ⟨10, 10, 0, 0⟩).1 = true ↔
      ∃ pt ∈ sampledCorners ⟨800, 640, 32, 32, 32, 32, 64, 64, 32, 0, 96⟩ ⟨10, 10, 0, 0⟩,
        ∃ t ∈ (fun q : Int => if q = 52 then [3, 7] else [1])
            (getPositionFromCoords ⟨800, 640, 32, 32, 32, 32, 64, 64, 32, 0, 96⟩ pt.1 pt.2),
          t ∈ [(7 : Int)]) ∧
    CollisionSystem ⟨800, 640, 32, 32, 32, 32, 64, 64, 32, 0, 96⟩
      ⟨fun q => if q = 52 then [3, 7] else [1], [7]⟩ ⟨10, 10, 0, 0⟩ = (true, [26, 27, 51, 52]) :=
  ⟨by decide, (C6_collision_iff_some_corner_collidable ⟨800, 640, 32, 32, 32, 32, 64, 64, 32, 0, 96⟩
    ⟨fun q => if q = 52 then [3, 7] else [1], [7]⟩ ⟨10, 10, 0, 0⟩
    (by decide) (by decide) (by decide) (by decide)).1, by decide⟩

theorem animationSystem_at (c : Constants) (es : List Entity) (i : Nat)
    (pos : PositionComponent) (s : SpriteComponent) (a : AnimationComponent)
    (hp : positionAt es i = some pos) (hs : spriteAt es i = some s)
    (ha : animationAt es i = some a) :
    positionAt (AnimationSystem c es) i = some pos ∧
      spriteAt (AnimationSystem c es) i = some (animate c pos s a).1 ∧
      animationAt (AnimationSystem c es) i = some (animate c pos s a).2 := by
  unfold positionAt spriteAt animationAt AnimationSystem at *
  rw [List.getElem?_map]
  cases he : es[i]? with
  | none => rw [he] at hp; exact Option.noConfusion hp
  | some e =>
    rw [he] at hp hs ha
    simp only [Option.some_bind] at hp hs ha
    simp [animationStep, hp, hs, ha]

theorem animate_idle (c : Constants) (pos : PositionComponent) (s : SpriteComponent)
    (a : AnimationComponent) (hdx : pos.deltaX = 0) (hdy : pos.deltaY = 0) :
    animate c pos s a =
      ({ s with srcX := c.SPRITE_WIDTH * 1 }, { a with deltaFrame := 1, frameCount := 1 }) := by
  simp [animate, hdx, hdy]

/-- C8, as the code has it: for an entity with position, sprite and animation components
and velocity (0, 0), after one `AnimationSystem` call srcX equals SPRITE_WIDTH * 1 and
deltaFrame equals 1 whatever they were before, and frameCount equals 1: the idle reset sets
it to 0 and the frame calculation of the same call then increments it. -/
theorem C8_idle_reset (c : Constants) (es : List Entity) (i : Nat)
    (pos : PositionComponent) (s : SpriteComponent) (a : AnimationComponent)
    (hp : positionAt es i = some pos) (hs : spriteAt es i = some s)
    (ha : animationAt es i = some a) (hdx : pos.deltaX = 0) (hdy : pos.deltaY = 0) :
    ∃ s' a', spriteAt (AnimationSystem c es) i = some s' ∧
      animationAt (AnimationSystem c es) i = some a' ∧
      s'.srcX = c.SPRITE_WIDTH * 1 ∧ a'.deltaFrame = 1 ∧ a'.frameCount = 1 := by
  obtain ⟨_, hs', ha'⟩ := animationSystem_at c es i pos s a hp hs ha
  refine ⟨_, _, hs', ha', ?_, ?_, ?_⟩ <;> rw [animate_idle c pos s a hdx hdy]

theorem C8_idle_reset_witness :
    positionAt [⟨some ⟨5, 6, 0, 0⟩, some ⟨"hero.png", 64, 96⟩, some ⟨9, -1⟩, none⟩] 0 =
      some ⟨5, 6, 0, 0⟩ ∧
    ∃ s' a', spriteAt (AnimationSystem ⟨800, 640, 32, 32, 32, 32, 64, 64, 32, 0, 96⟩
        [⟨some ⟨5, 6, 0, 0⟩, some ⟨"hero.png", 64, 96⟩, some ⟨9, -1⟩, none⟩]) 0 = some s' ∧
      animationAt (AnimationSystem ⟨800, 640, 32, 32, 32, 32, 64, 64, 32, 0, 96⟩
        [⟨some ⟨5, 6, 0, 0⟩, some ⟨"hero.png", 64, 96⟩, some ⟨9, -1⟩, none⟩]) 0 = some a' ∧
      s'.srcX = 32 * 1 ∧ a'.deltaFrame = 1 ∧ a'.frameCount = 1 :=
  ⟨rfl, C8_idle_reset ⟨800, 640, 32, 32, 32, 32, 64, 64, 32, 0, 96⟩
    [⟨some ⟨5, 6, 0, 0⟩, some ⟨"hero.png", 64, 96⟩, some ⟨9, -1⟩, none⟩] 0
    ⟨5, 6, 0, 0⟩ ⟨"hero.png", 64, 96⟩ ⟨9, -1⟩ rfl rfl rfl rfl rfl⟩

/-- C8 fails as stated: an idle entity entering `AnimationSystem` with frameCount 4 leaves
it with frameCount 1, not 0. -/
theorem C8_counterexample_frameCount :
    (animationAt (AnimationSystem ⟨800, 640, 32, 32, 32, 32, 64, 64, 32, 0, 96⟩
        [⟨some ⟨5, 6, 0, 0⟩, some ⟨"hero.png", 64, 96⟩, some ⟨4, -1⟩, none⟩]) 0).map
        AnimationComponent.frameCount = some 1 ∧
    (animationAt (AnimationSystem ⟨800, 640, 32, 32, 32, 32, 64, 64, 32, 0, 96⟩
        [⟨some ⟨5, 6, 0, 0⟩, some ⟨"hero.png", 64, 96⟩, some ⟨4, -1⟩, none⟩]) 0).map
        AnimationComponent.frameCount ≠ some 0 := by
  decide

/-- C9: for an entity with position, sprite and animation components and a non-zero
velocity (dx, dy) with dx, dy in {-1, 0, 1}, after `AnimationSystem` srcY is RIGHT_SPRITE
if dx = 1, LEFT_SPRITE if dx = -1, DOWN_SPRITE if dx = 0 and dy = 1, UP_SPRITE if dx = 0
and dy = -1; a diagonal velocity therefore takes its horizontal row. -/
theorem C9_sprite_row_by_direction (c : Constants) (es : List Entity) (i : Nat)
    (pos : PositionComponent) (s : SpriteComponent) (a : AnimationComponent)
    (hp : positionAt es i = some pos) (hs : spriteAt es i = some s)
    (ha : animationAt es i = some a)
    (hdx : pos.deltaX = -1 ∨ pos.deltaX = 0 ∨ pos.deltaX = 1)
    (hdy : pos.deltaY = -1 ∨ pos.deltaY = 0 ∨ pos.deltaY = 1)
    (hne : ¬ (pos.deltaX = 0 ∧ pos.deltaY = 0)) :
    ∃ s', spriteAt (AnimationSystem c es) i = some s' ∧
      s'.srcY = (if pos.deltaX = 1 then c.RIGHT_SPRITE
        else if pos.deltaX = -1 then c.LEFT_SPRITE
        else if pos.deltaY = 1 then c.DOWN_SPRITE
        else c.UP_SPRITE) ∧
      (pos.deltaX = 1 → s'.srcY = c.RIGHT_SPRITE) ∧
      (pos.deltaX = -1 → s'.srcY = c.LEFT_SPRITE) ∧
      (pos.deltaX = 0 ∧ pos.deltaY = 1 → s'.srcY = c.DOWN_SPRITE) ∧
      (pos.deltaX = 0 ∧ pos.deltaY = -1 → s'.srcY = c.UP_SPRITE) := by
  obtain ⟨_, hs', _⟩ := animationSystem_at c es i pos s a hp hs ha
  refine ⟨_, hs', ?_⟩
  have hrow : (animate c pos s a).1.srcY =
      (if pos.deltaX = 1 then c.RIGHT_SPRITE
        else if pos.deltaX = -1 then c.LEFT_SPRITE
        else if pos.deltaY = 1 then c.DOWN_SPRITE
        else c.UP_SPRITE) := by
    unfold animate
    rw [if_neg hne]
    dsimp only
    have hup : pos.deltaX ≠ 1 → pos.deltaX ≠ -1 → pos.deltaY ≠ 1 → pos.deltaY = -1 := by
      omega
    split_ifs <;> simp_all
  rw [hrow]
  refine ⟨rfl, ?_, ?_, ?_, ?_⟩
  · intro h; simp [h]
  · intro h; simp [h]
  · rintro ⟨h1, h2⟩; simp [h1, h2]
  · rintro ⟨h1, h2⟩; simp [h1, h2]

theorem C9_sprite_row_by_direction_witness :
    positionAt [⟨some ⟨5, 6, 1, -1⟩, some ⟨"hero.png", 64, 96⟩, some ⟨9, -1⟩, none⟩] 0 =
      some ⟨5, 6, 1, -1⟩ ∧
    ¬ ((1 : Int) = 0 ∧ (-1 : Int) = 0) ∧
    ∃ s', spriteAt (AnimationSystem ⟨800, 640, 32, 32, 32, 32, 64, 64, 32, 0, 96⟩
        [⟨some ⟨5, 6, 1, -1⟩, some ⟨"hero.png", 64, 96⟩, some ⟨9, -1⟩, none⟩]) 0 = some s' ∧
      s'.srcY = 64 :=
  ⟨rfl, by decide,
    (C9_sprite_row_by_direction ⟨800, 640, 32, 32, 32, 32, 64, 64, 32, 0, 96⟩
      [⟨some ⟨5, 6, 1, -1⟩, some ⟨"hero.png", 64, 96⟩, some ⟨9, -1⟩, none⟩] 0
      ⟨5, 6, 1, -1⟩ ⟨"hero.png", 64, 96⟩ ⟨9, -1⟩ rfl rfl rfl
      (by decide) (by decide) (by decide)).imp (fun _ h => ⟨h.1, h.2.1⟩)⟩

theorem frameInv_animate_idle (c : Constants) (hw : 0 < c.SPRITE_WIDTH)
    (pos : PositionComponent) (s : SpriteComponent) (a : AnimationComponent)
    (hdx : pos.deltaX = 0) (hdy : pos.deltaY = 0) :
    FrameInv c (animate c pos s a).1 (animate c pos s a).2 := by
  rw [animate_idle c pos s a hdx hdy]
  simp only [FrameInv]
  refine ⟨by omega, Or.inl trivial, fun _ => trivial, ?_⟩
  intro h
  omega

theorem frameInv_animate (c : Constants) (hw : 0 < c.SPRITE_WIDTH)
    (pos : PositionComponent) (s : SpriteComponent) (a : AnimationComponent)
    (hinv : FrameInv c s a) :
    FrameInv c (animate c pos s a).1 (animate c pos s a).2 := by
  by_cases hidle : pos.deltaX = 0 ∧ pos.deltaY = 0
  · exact frameInv_animate_idle c hw pos s a hidle.1 hidle.2
  · obtain ⟨sf, x, y⟩ := s
    obtain ⟨fc, d⟩ := a
    obtain ⟨hx, hd, h0, h2⟩ := hinv
    simp only at hx hd h0 h2
    unfold animate
    rw [if_neg hidle]
    simp only [FrameInv]
    rcases hd with rfl | rfl <;> split_ifs <;> dsimp only at * <;> omega

theorem frameInv_bounds (c : Constants) (hw : 0 < c.SPRITE_WIDTH) (s : SpriteComponent)
    (a : AnimationComponent) (hinv : FrameInv c s a) :
    0 ≤ s.srcX ∧ s.srcX ≤ 2 * c.SPRITE_WIDTH := by
  obtain ⟨hx, _⟩ := hinv
  omega

theorem frameInv_animateRun (c : Constants) (hw : 0 < c.SPRITE_WIDTH)
    (vs : List PositionComponent) :
    ∀ st : SpriteComponent × AnimationComponent, FrameInv c st.1 st.2 →
      FrameInv c (animateRun c vs st).1 (animateRun c vs st).2 := by
  induction vs with
  | nil => intro st h; exact h
  | cons pos rest ih =>
    intro st h
    exact ih _ (frameInv_animate c hw pos st.1 st.2 h)

/-- C10: with SPRITE_WIDTH > 0 the frame predicate `FrameInv` (srcX in
{0, SPRITE_WIDTH, 2*SPRITE_WIDTH}, deltaFrame in {1, -1}, srcX = 0 gives deltaFrame = 1,
srcX = 2*SPRITE_WIDTH gives deltaFrame = -1) holds after an `AnimationSystem` call on an
idle entity whatever its state was, is preserved by every `AnimationSystem` call for every
velocity and frame counter, and so holds, with 0 <= srcX <= 2*SPRITE_WIDTH, after any
sequence of calls started in such a state. -/
theorem C10_frame_invariant (c : Constants) (hw : 0 < c.SPRITE_WIDTH) :
    (∀ (es : List Entity) (i : Nat) (pos : PositionComponent) (s : SpriteComponent)
        (a : AnimationComponent),
      positionAt es i = some pos → spriteAt es i = some s → animationAt es i = some a →
      pos.deltaX = 0 → pos.deltaY = 0 →
      ∃ s' a', spriteAt (AnimationSystem c es) i = some s' ∧
        animationAt (AnimationSystem c es) i = some a' ∧ FrameInv c s' a') ∧
    (∀ (es : List Entity) (i : Nat) (pos : PositionComponent) (s : SpriteComponent)
        (a : AnimationComponent),
      positionAt es i = some pos → spriteAt es i = some s → animationAt es i = some a →
      FrameInv c s a →
      ∃ s' a', spriteAt (AnimationSystem c es) i = some s' ∧
        animationAt (AnimationSystem c es) i = some a' ∧ FrameInv c s' a' ∧
        0 ≤ s'.srcX ∧ s'.srcX ≤ 2 * c.SPRITE_WIDTH) ∧
    (∀ (vs : List PositionComponent) (s : SpriteComponent) (a : AnimationComponent),
      FrameInv c s a →
      FrameInv c (animateRun c vs (s, a)).1 (animateRun c vs (s, a)).2 ∧
        0 ≤ (animateRun c vs (s, a)).1.srcX ∧
        (animateRun c vs (s, a)).1.srcX ≤ 2 * c.SPRITE_WIDTH) ∧
    (∀ (n : Nat) (es : List Entity) (i : Nat) (pos : PositionComponent)
        (s : SpriteComponent) (a : AnimationComponent),
      positionAt es i = some pos → spriteAt es i = some s → animationAt es i = some a →
      FrameInv c s a →
      ∃ s' a', spriteAt ((AnimationSystem c)^[n] es) i = some s' ∧
        animationAt ((AnimationSystem c)^[n] es) i = some a' ∧ FrameInv c s' a' ∧
        0 ≤ s'.srcX ∧ s'.srcX ≤ 2 * c.SPRITE_WIDTH) := by
  refine ⟨?_, ?_, ?_, ?_⟩
  · intro es i pos s a hp hs ha hdx hdy
    obtain ⟨_, hs', ha'⟩ := animationSystem_at c es i pos s a hp hs ha
    exact ⟨_, _, hs', ha', frameInv_animate_idle c hw pos s a hdx hdy⟩
  · intro es i pos s a hp hs ha hinv
    obtain ⟨_, hs', ha'⟩ := animationSystem_at c es i pos s a hp hs ha
    have h := frameInv_animate c hw pos s a hinv
    exact ⟨_, _, hs', ha', h, frameInv_bounds c hw _ _ h⟩
  · intro vs s a hinv
    have h := frameInv_animateRun c hw vs (s, a) hinv
    exact ⟨h, frameInv_bounds c hw _ _ h⟩
  · intro n
    induction n with
    | zero =>
      intro es i pos s a _ hs ha hinv
      exact ⟨s, a, hs, ha, hinv, frameInv_bounds c hw s a hinv⟩
    | succ k ih =>
      intro es i pos s a hp hs ha hinv
      obtain ⟨hp', hs', ha'⟩ := animationSystem_at c es i pos s a hp hs ha
      rw [Function.iterate_succ_apply]
      exact ih (AnimationSystem c es) i pos _ _ hp' hs' ha'
        (frameInv_animate c hw pos s a hinv)

theorem C10_frame_invariant_witness :
    (0 : Int) < 32 ∧
    FrameInv ⟨800, 640, 32, 32, 32, 32, 64, 64, 32, 0, 96⟩ ⟨"hero.png", 64, 0⟩ ⟨9, -1⟩ ∧
    animateRun ⟨800, 640, 32, 32, 32, 32, 64, 64, 32, 0, 96⟩
        [⟨0, 0, 1, 0⟩, ⟨2, 0, 0, 0⟩, ⟨2, 0, 0, -1⟩] (⟨"hero.png", 64, 0⟩, ⟨9, -1⟩) =
      (⟨"hero.png", 32, 96⟩, ⟨2, 1⟩) ∧
    (0 : Int) ≤ (animateRun ⟨800, 640, 32, 32, 32, 32, 64, 64, 32, 0, 96⟩
        [⟨0, 0, 1, 0⟩, ⟨2, 0, 0, 0⟩, ⟨2, 0, 0, -1⟩] (⟨"hero.png", 64, 0⟩, ⟨9, -1⟩)).1.srcX ∧
    (animateRun ⟨800, 640, 32, 32, 32, 32, 64, 64, 32, 0, 96⟩
        [⟨0, 0, 1, 0⟩, ⟨2, 0, 0, 0⟩, ⟨2, 0, 0, -1⟩] (⟨"hero.png", 64, 0⟩, ⟨9, -1⟩)).1.srcX ≤
      2 * 32 :=
  ⟨by decide, by decide, by decide,
    ((C10_frame_invariant ⟨800, 640, 32, 32, 32, 32, 64, 64, 32, 0, 96⟩ (by decide)).2.2.1
      [⟨0, 0, 1, 0⟩, ⟨2, 0, 0, 0⟩, ⟨2, 0, 0, -1⟩] ⟨"hero.png", 64, 0⟩ ⟨9, -1⟩
      (by decide)).2⟩

/-! Input system -/

theorem steer_dest (k : KeyCodes) (keyPressed : Int) (p : PositionComponent) :
    (steer k keyPressed p).destX = p.destX ∧ (steer k keyPressed p).destY = p.destY := by
  unfold steer
  dsimp only
  split_ifs <;> exact ⟨rfl, rfl⟩

theorem positionAt_ControlSystem (k : KeyCodes) (keyPressed : Int) (es : List Entity)
    (i : Nat) (p : PositionComponent) (ctl : ControlComponent)
    (hp : positionAt es i = some p) (hc : controlAt es i = some ctl)
    (hin : ctl.inControl = true) :
    positionAt (ControlSystem k keyPressed es) i = some (steer k keyPressed p) := by
  unfold positionAt controlAt ControlSystem at *
  rw [List.getElem?_map]
  cases he : es[i]? with
  | none => rw [he] at hp; exact Option.noConfusion hp
  | some e =>
    rw [he] at hp hc
    simp only [Option.some_bind] at hp hc
    simp [controlStep, hp, hc, hin]

theorem steer_delta_cases (k : KeyCodes) (keyPressed : Int) (p : PositionComponent) :
    ((keyPressed = k.SDLK_w ∨ keyPressed = k.SDLK_UP) ∧
      (steer k keyPressed p).deltaX = 0 ∧ (steer k keyPressed p).deltaY = -1) ∨
    (¬ (keyPressed = k.SDLK_w ∨ keyPressed = k.SDLK_UP) ∧
      (keyPressed = k.SDLK_a ∨ keyPressed = k.SDLK_LEFT) ∧
      (steer k keyPressed p).deltaX = -1 ∧ (steer k keyPressed p).deltaY = 0) ∨
    (¬ (keyPressed = k.SDLK_w ∨ keyPressed = k.SDLK_UP) ∧
      ¬ (keyPressed = k.SDLK_a ∨ keyPressed = k.SDLK_LEFT) ∧
      (keyPressed = k.SDLK_s ∨ keyPressed = k.SDLK_DOWN) ∧
      (steer k keyPressed p).deltaX = 0 ∧ (steer k keyPressed p).deltaY = 1) ∨
    (¬ (keyPressed = k.SDLK_w ∨ keyPressed = k.SDLK_UP) ∧
      ¬ (keyPressed = k.SDLK_a ∨ keyPressed = k.SDLK_LEFT) ∧
      ¬ (keyPressed = k.SDLK_s ∨ keyPressed = k.SDLK_DOWN) ∧
      (keyPressed = k.SDLK_d ∨ keyPressed = k.SDLK_RIGHT) ∧
      (steer k keyPressed p).deltaX = 1 ∧ (steer k keyPressed p).deltaY = 0) ∨
    (¬ (keyPressed = k.SDLK_w ∨ keyPressed = k.SDLK_UP) ∧
      ¬ (keyPressed = k.SDLK_a ∨ keyPressed = k.SDLK_LEFT) ∧
      ¬ (keyPressed = k.SDLK_s ∨ keyPressed = k.SDLK_DOWN) ∧
      ¬ (keyPressed = k.SDLK_d ∨ keyPressed = k.SDLK_RIGHT) ∧
      (steer k keyPressed p).deltaX = 0 ∧ (steer k keyPressed p).deltaY = 0) := by
  unfold steer
  dsimp only
  by_cases hA : keyPressed = k.SDLK_w ∨ keyPressed = k.SDLK_UP
  · rw [if_pos hA]
    exact Or.inl ⟨hA, rfl, rfl⟩
  · rw [if_neg hA]
    by_cases hB : keyPressed = k.SDLK_a ∨ keyPressed = k.SDLK_LEFT
    · rw [if_pos hB]
      exact Or.inr (Or.inl ⟨hA, hB, rfl, rfl⟩)
    · rw [if_neg hB]
      by_cases hC : keyPressed = k.SDLK_s ∨ keyPressed = k.SDLK_DOWN
      · rw [if_pos hC]
        exact Or.inr (Or.inr (Or.inl ⟨hA, hB, hC, rfl, rfl⟩))
      · rw [if_neg hC]
        by_cases hD : keyPressed = k.SDLK_d ∨ keyPressed = k.SDLK_RIGHT
        · rw [if_pos hD]
          exact Or.inr (Or.inr (Or.inr (Or.inl ⟨hA, hB, hC, hD, rfl, rfl⟩)))
        · rw [if_neg hD]
          exact Or.inr (Or.inr (Or.inr (Or.inr ⟨hA, hB, hC, hD, rfl, rfl⟩)))

theorem keys_disjoint (x a b c d : Int) (h1 : a ≠ c) (h2 : a ≠ d) (h3 : b ≠ c)
    (h4 : b ≠ d) : (x = a ∨ x = b) → ¬ (x = c ∨ x = d) := by
  omega

theorem switch_logic (A B C D : Prop) (qx qy : Int)
    (hAB : A → ¬ B) (hAC : A → ¬ C) (hAD : A → ¬ D) (hBC : B → ¬ C) (hBD : B → ¬ D)
    (hCD : C → ¬ D)
    (hq : (A ∧ qx = 0 ∧ qy = -1) ∨ (¬ A ∧ B ∧ qx = -1 ∧ qy = 0) ∨
      (¬ A ∧ ¬ B ∧ C ∧ qx = 0 ∧ qy = 1) ∨ (¬ A ∧ ¬ B ∧ ¬ C ∧ D ∧ qx = 1 ∧ qy = 0) ∨
      (¬ A ∧ ¬ B ∧ ¬ C ∧ ¬ D ∧ qx = 0 ∧ qy = 0)) :
    (A → qx = 0 ∧ qy = -1) ∧ (B → qx = -1 ∧ qy = 0) ∧ (C → qx = 0 ∧ qy = 1) ∧
      (D → qx = 1 ∧ qy = 0) ∧
      (A ∨ B ∨ C ∨ D →
        (qx = 0 ∧ (qy = 1 ∨ qy = -1)) ∨ (qy = 0 ∧ (qx = 1 ∨ qx = -1))) ∧
      (qx = -1 ∨ qx = 0 ∨ qx = 1) ∧ (qy = -1 ∨ qy = 0 ∨ qy = 1) := by
  rcases hq with ⟨hA, hx, hy⟩ | ⟨hA, hB, hx, hy⟩ | ⟨hA, hB, hC, hx, hy⟩ |
    ⟨hA, hB, hC, hD, hx, hy⟩ | ⟨hA, hB, hC, hD, hx, hy⟩ <;> subst hx hy <;> simp_all

theorem switch_same (A B C D : Prop) (qx qy qx' qy' : Int)
    (hq : (A ∧ qx = 0 ∧ qy = -1) ∨ (¬ A ∧ B ∧ qx = -1 ∧ qy = 0) ∨
      (¬ A ∧ ¬ B ∧ C ∧ qx = 0 ∧ qy = 1) ∨ (¬ A ∧ ¬ B ∧ ¬ C ∧ D ∧ qx = 1 ∧ qy = 0) ∨
      (¬ A ∧ ¬ B ∧ ¬ C ∧ ¬ D ∧ qx = 0 ∧ qy = 0))
    (hq' : (A ∧ qx' = 0 ∧ qy' = -1) ∨ (¬ A ∧ B ∧ qx' = -1 ∧ qy' = 0) ∨
      (¬ A ∧ ¬ B ∧ C ∧ qx' = 0 ∧ qy' = 1) ∨ (¬ A ∧ ¬ B ∧ ¬ C ∧ D ∧ qx' = 1 ∧ qy' = 0) ∨
      (¬ A ∧ ¬ B ∧ ¬ C ∧ ¬ D ∧ qx' = 0 ∧ qy' = 0)) :
    qx' = qx ∧ qy' = qy := by
  rcases hq with ⟨hA, hx, hy⟩ | ⟨hA, hB, hx, hy⟩ | ⟨hA, hB, hC, hx, hy⟩ |
    ⟨hA, hB, hC, hD, hx, hy⟩ | ⟨hA, hB, hC, hD, hx, hy⟩ <;>
  rcases hq' with ⟨hA', hx', hy'⟩ | ⟨hA', hB', hx', hy'⟩ | ⟨hA', hB', hC', hx', hy'⟩ |
    ⟨hA', hB', hC', hD', hx', hy'⟩ | ⟨hA', hB', hC', hD', hx', hy'⟩ <;>
  first
    | contradiction
    | exact ⟨hx'.trans hx.symm, hy'.trans hy.symm⟩

/-- C11: for an entity in control with a position component, whatever its velocity was,
after `ControlSystem` the velocity is (0, -1) for SDLK_w or SDLK_UP, (-1, 0) for SDLK_a or
SDLK_LEFT, (0, 1) for SDLK_s or SDLK_DOWN and (1, 0) for SDLK_d or SDLK_RIGHT; it is the
same for every prior position component; for a recognized key one axis is 1 or -1 and the
other is 0; and for every key both deltaX and deltaY are in {-1, 0, 1}.  The case labels
are pairwise distinct, as C++ requires of a `switch`. -/
theorem C11_velocity_from_key (k : KeyCodes) (hk : k.caseLabels.Nodup) (keyPressed : Int)
    (es : List Entity) (i : Nat) (p : PositionComponent) (ctl : ControlComponent)
    (hp : positionAt es i = some p) (hc : controlAt es i = some ctl)
    (hin : ctl.inControl = true) :
    ∃ q, positionAt (ControlSystem k keyPressed es) i = some q ∧
      (keyPressed = k.SDLK_w ∨ keyPressed = k.SDLK_UP → q.deltaX = 0 ∧ q.deltaY = -1) ∧
      (keyPressed = k.SDLK_a ∨ keyPressed = k.SDLK_LEFT → q.deltaX = -1 ∧ q.deltaY = 0) ∧
      (keyPressed = k.SDLK_s ∨ keyPressed = k.SDLK_DOWN → q.deltaX = 0 ∧ q.deltaY = 1) ∧
      (keyPressed = k.SDLK_d ∨ keyPressed = k.SDLK_RIGHT → q.deltaX = 1 ∧ q.deltaY = 0) ∧
      (keyPressed ∈ k.caseLabels →
        (q.deltaX = 0 ∧ (q.deltaY = 1 ∨ q.deltaY = -1)) ∨
        (q.deltaY = 0 ∧ (q.deltaX = 1 ∨ q.deltaX = -1))) ∧
      (q.deltaX = -1 ∨ q.deltaX = 0 ∨ q.deltaX = 1) ∧
      (q.deltaY = -1 ∨ q.deltaY = 0 ∨ q.deltaY = 1) ∧
      (∀ p' : PositionComponent,
        (steer k keyPressed p').deltaX = q.deltaX ∧
        (steer k keyPressed p').deltaY = q.deltaY) := by
  refine ⟨steer k keyPressed p, positionAt_ControlSystem k keyPressed es i p ctl hp hc hin, ?_⟩
  simp only [KeyCodes.caseLabels, List.nodup_cons, List.mem_cons, List.mem_singleton,
    List.not_mem_nil, not_or, not_false_eq_true, List.nodup_nil, and_true, or_false] at hk ⊢
  obtain ⟨⟨_, h13, h14, h15, h16, h17, h18⟩, ⟨h23, h24, h25, h26, h27, h28⟩,
    ⟨_, h35, h36, h37, h38⟩, ⟨h45, h46, h47, h48⟩, ⟨_, h57, h58⟩, ⟨h67, h68⟩, _⟩ := hk
  have hAB := keys_disjoint keyPressed _ _ _ _ h13 h14 h23 h24
  have hAC := keys_disjoint keyPressed _ _ _ _ h15 h16 h25 h26
  have hAD := keys_disjoint keyPressed _ _ _ _ h17 h18 h27 h28
  have hBC := keys_disjoint keyPressed _ _ _ _ h35 h36 h45 h46
  have hBD := keys_disjoint keyPressed _ _ _ _ h37 h38 h47 h48
  have hCD := keys_disjoint keyPressed _ _ _ _ h57 h58 h67 h68
  clear h13 h14 h15 h16 h17 h18 h23 h24 h25 h26 h27 h28 h35 h36 h37 h38 h45 h46 h47 h48
    h57 h58 h67 h68
  have hq := steer_delta_cases k keyPressed p
  obtain ⟨g1, g2, g3, g4, g5, g6, g7⟩ :=
    switch_logic (keyPressed = k.SDLK_w ∨ keyPressed = k.SDLK_UP)
      (keyPressed = k.SDLK_a ∨ keyPressed = k.SDLK_LEFT)
      (keyPressed = k.SDLK_s ∨ keyPressed = k.SDLK_DOWN)
      (keyPressed = k.SDLK_d ∨ keyPressed = k.SDLK_RIGHT)
      (steer k keyPressed p).deltaX (steer k keyPressed p).deltaY
      hAB hAC hAD hBC hBD hCD hq
  refine ⟨g1, g2, g3, g4, ?_, g6, g7, ?_⟩
  · intro h
    refine g5 ?_
    rcases h with h | h | h | h | h | h | h | h
    · exact Or.inl (Or.inl h)
    · exact Or.inl (Or.inr h)
    · exact Or.inr (Or.inl (Or.inl h))
    · exact Or.inr (Or.inl (Or.inr h))
    · exact Or.inr (Or.inr (Or.inl (Or.inl h)))
    · exact Or.inr (Or.inr (Or.inl (Or.inr h)))
    · exact Or.inr (Or.inr (Or.inr (Or.inl h)))
    · exact Or.inr (Or.inr (Or.inr (Or.inr h)))
  · intro p'
    exact switch_same (keyPressed = k.SDLK_w ∨ keyPressed = k.SDLK_UP)
      (keyPressed = k.SDLK_a ∨ keyPressed = k.SDLK_LEFT)
      (keyPressed = k.SDLK_s ∨ keyPressed = k.SDLK_DOWN)
      (keyPressed = k.SDLK_d ∨ keyPressed = k.SDLK_RIGHT)
      (steer k keyPressed p).deltaX (steer k keyPressed p).deltaY
      (steer k keyPressed p').deltaX (steer k keyPressed p').deltaY
      hq (steer_delta_cases k keyPressed p')

theorem C11_velocity_from_key_witness :
    (KeyCodes.caseLabels ⟨119, 1073741906, 97, 1073741904, 115, 1073741905, 100,
      1073741903⟩).Nodup ∧
    ∃ q, positionAt (ControlSystem
        ⟨119, 1073741906, 97, 1073741904, 115, 1073741905, 100, 1073741903⟩ 1073741904
        [⟨some ⟨5, 6, 1, 1⟩, none, none, some ⟨true⟩⟩]) 0 = some q ∧
      q.deltaX = -1 ∧ q.deltaY = 0 :=
  ⟨by decide,
    (C11_velocity_from_key ⟨119, 1073741906, 97, 1073741904, 115, 1073741905, 100, 1073741903⟩
      (by decide) 1073741904 [⟨some ⟨5, 6, 1, 1⟩, none, none, some ⟨true⟩⟩] 0 ⟨5, 6, 1, 1⟩
      ⟨true⟩ rfl rfl rfl).imp
      (fun _ h => ⟨h.1, h.2.2.1 (Or.inr rfl)⟩)⟩

/-- C12: for a key that is none of the eight recognized key codes, an entity in control
with a position component has velocity (0, 0) after `ControlSystem`, whatever its velocity
was before. -/
theorem C12_unrecognized_key_zeroes_velocity (k : KeyCodes) (keyPressed : Int)
    (hkey : keyPressed ∉ k.caseLabels)
    (es : List Entity) (i : Nat) (p : PositionComponent) (ctl : ControlComponent)
    (hp : positionAt es i = some p) (hc : controlAt es i = some ctl)
    (hin : ctl.inControl = true) :
    ∃ q, positionAt (ControlSystem k keyPressed es) i = some q ∧
      q.deltaX = 0 ∧ q.deltaY = 0 := by
  refine ⟨steer k keyPressed p, positionAt_ControlSystem k keyPressed es i p ctl hp hc hin, ?_⟩
  simp only [KeyCodes.caseLabels, List.mem_cons, List.mem_singleton, List.not_mem_nil,
    not_or, or_false] at hkey
  obtain ⟨n1, n2, n3, n4, n5, n6, n7, n8⟩ := hkey
  rcases steer_delta_cases k keyPressed p with ⟨hA, _⟩ | ⟨_, hB, _⟩ | ⟨_, _, hC, _⟩ |
    ⟨_, _, _, hD, _⟩ | ⟨_, _, _, _, hx, hy⟩
  · exact absurd hA (not_or.2 ⟨n1, n2⟩)
  · exact absurd hB (not_or.2 ⟨n3, n4⟩)
  · exact absurd hC (not_or.2 ⟨n5, n6⟩)
  · exact absurd hD (not_or.2 ⟨n7, n8⟩)
  · exact ⟨hx, hy⟩

theorem C12_unrecognized_key_zeroes_velocity_witness :
    (32 : Int) ∉ KeyCodes.caseLabels
      ⟨119, 1073741906, 97, 1073741904, 115, 1073741905, 100, 1073741903⟩ ∧
    ∃ q, positionAt (ControlSystem
        ⟨119, 1073741906, 97, 1073741904, 115, 1073741905, 100, 1073741903⟩ 32
        [⟨some ⟨5, 6, 1, -1⟩, none, none, some ⟨true⟩⟩]) 0 = some q ∧
      q.deltaX = 0 ∧ q.deltaY = 0 :=
  ⟨by decide,
    C12_unrecognized_key_zeroes_velocity
      ⟨119, 1073741906, 97, 1073741904, 115, 1073741905, 100, 1073741903⟩ 32 (by decide)
      [⟨some ⟨5, 6, 1, -1⟩, none, none, some ⟨true⟩⟩] 0 ⟨5, 6, 1, -1⟩ ⟨true⟩ rfl rfl rfl⟩

/-! Entities without the required components -/

theorem positionStep_of_no_position (c : Constants) (tilemap : TileMap) (e : Entity)
    (h : e.position = none) : positionStep c tilemap e = e := by
  simp [positionStep, h]

theorem animationStep_of_missing (c : Constants) (e : Entity)
    (h : e.position = none ∨ e.sprite = none ∨ e.animation = none) :
    animationStep c e = e := by
  unfold animationStep
  rcases h with h | h | h
  · rw [h]
  · rw [h]
    cases e.position <;> rfl
  · rw [h]
    cases e.position <;> cases e.sprite <;> rfl

theorem controlStep_of_missing (k : KeyCodes) (keyPressed : Int) (e : Entity)
    (h : e.position = none ∨ e.control = none ∨ e.control = some ⟨false⟩) :
    controlStep k keyPressed e = e := by
  unfold controlStep
  rcases h with h | h | h
  · rw [h]
  · rw [h]
    cases e.position <;> rfl
  · rw [h]
    cases e.position <;> simp

/-- C13: `PositionSystem`, `AnimationSystem` and `ControlSystem` keep the number of
entities, and entity `i` of the result is the loop body applied to entity `i` of the input,
so the order is kept; an entity without a position component is returned unchanged by all
three; an entity without a sprite or without an animation component is returned unchanged
by `AnimationSystem`; an entity without a control component, or whose `inControl` is false,
is returned unchanged by `ControlSystem`. -/
theorem C13_systems_skip_missing_components (c : Constants) (tilemap : TileMap)
    (k : KeyCodes) (keyPressed : Int) (es : List Entity) :
    ((PositionSystem c tilemap es).length = es.length ∧
      (AnimationSystem c es).length = es.length ∧
      (ControlSystem k keyPressed es).length = es.length) ∧
    (∀ i : Nat,
      (PositionSystem c tilemap es)[i]? = es[i]?.map (positionStep c tilemap) ∧
      (AnimationSystem c es)[i]? = es[i]?.map (animationStep c) ∧
      (ControlSystem k keyPressed es)[i]? = es[i]?.map (controlStep k keyPressed)) ∧
    (∀ (i : Nat) (e : Entity), es[i]? = some e → e.position = none →
      (PositionSystem c tilemap es)[i]? = some e ∧
      (AnimationSystem c es)[i]? = some e ∧
      (ControlSystem k keyPressed es)[i]? = some e) ∧
    (∀ (i : Nat) (e : Entity), es[i]? = some e → e.sprite = none ∨ e.animation = none →
      (AnimationSystem c es)[i]? = some e) ∧
    (∀ (i : Nat) (e : Entity), es[i]? = some e →
      e.control = none ∨ e.control = some ⟨false⟩ →
      (ControlSystem k keyPressed es)[i]? = some e) := by
  refine ⟨⟨?_, ?_, ?_⟩, ?_, ?_, ?_, ?_⟩
  · simp [PositionSystem]
  · simp [AnimationSystem]
  · simp [ControlSystem]
  · intro i
    exact ⟨List.getElem?_map _ _ _, List.getElem?_map _ _ _, List.getElem?_map _ _ _⟩
  · intro i e he hp
    refine ⟨?_, ?_, ?_⟩
    · unfold PositionSystem
      rw [List.getElem?_map, he, Option.map_some', positionStep_of_no_position c tilemap e hp]
    · unfold AnimationSystem
      rw [List.getElem?_map, he, Option.map_some', animationStep_of_missing c e (Or.inl hp)]
    · unfold ControlSystem
      rw [List.getElem?_map, he, Option.map_some',
        controlStep_of_missing k keyPressed e (Or.inl hp)]
  · intro i e he hm
    unfold AnimationSystem
    rw [List.getElem?_map, he, Option.map_some', animationStep_of_missing c e (Or.inr hm)]
  · intro i e he hm
    unfold ControlSystem
    rw [List.getElem?_map, he, Option.map_some',
      controlStep_of_missing k keyPressed e (Or.inr hm)]

theorem C13_systems_skip_missing_components_witness :
    (PositionSystem ⟨800, 640, 32, 32, 32, 32, 64, 64, 32, 0, 96⟩ ⟨fun _ => [1], [7]⟩
      [⟨none, some ⟨"tree.png", 0, 0⟩, some ⟨9, 1⟩, some ⟨true⟩⟩,
       ⟨some ⟨5, 6, 1, 0⟩, none, none, some ⟨false⟩⟩])[0]? =
      some ⟨none, some ⟨"tree.png", 0, 0⟩, some ⟨9, 1⟩, some ⟨true⟩⟩ ∧
    (AnimationSystem ⟨800, 640, 32, 32, 32, 32, 64, 64, 32, 0, 96⟩
      [⟨none, some ⟨"tree.png", 0, 0⟩, some ⟨9, 1⟩, some ⟨true⟩⟩,
       ⟨some ⟨5, 6, 1, 0⟩, none, none, some ⟨false⟩⟩])[0]? =
      some ⟨none, some ⟨"tree.png", 0, 0⟩, some ⟨9, 1⟩, some ⟨true⟩⟩ ∧
    (ControlSystem ⟨119, 1073741906, 97, 1073741904, 115, 1073741905, 100, 1073741903⟩ 119
      [⟨none, some ⟨"tree.png", 0, 0⟩, some ⟨9, 1⟩, some ⟨true⟩⟩,
       ⟨some ⟨5, 6, 1, 0⟩, none, none, some ⟨false⟩⟩])[0]? =
      some ⟨none, some ⟨"tree.png", 0, 0⟩, some ⟨9, 1⟩, some ⟨true⟩⟩ :=
  (C13_systems_skip_missing_components ⟨800, 640, 32, 32, 32, 32, 64, 64, 32, 0, 96⟩
    ⟨fun _ => [1], [7]⟩
    ⟨119, 1073741906, 97, 1073741904, 115, 1073741905, 100, 1073741903⟩ 119
    [⟨none, some ⟨"tree.png", 0, 0⟩, some ⟨9, 1⟩, some ⟨true⟩⟩,
     ⟨some ⟨5, 6, 1, 0⟩, none, none, some ⟨false⟩⟩]).2.2.1 0
    ⟨none, some ⟨"tree.png", 0, 0⟩, some ⟨9, 1⟩, some ⟨true⟩⟩ rfl rfl

/-! Render system -/

theorem drawStep_eq_expectedDraw {τ : Type} (c : Constants) (loadTexture : String → τ)
    (e : Entity) : drawStep c loadTexture e = (expectedDraw c loadTexture e).toList := by
  unfold drawStep expectedDraw
  cases e.position <;> cases e.sprite <;> rfl

/-- C14: `DrawSystem` returns the entities as they were and submits, in entity order,
exactly one draw call for each entity that has both a position and a sprite component and
none for any other; the call has source rectangle (srcX, srcY, SPRITE_WIDTH, SPRITE_HEIGHT)
and destination rectangle (destX, destY, INGAME_WIDTH, INGAME_HEIGHT). -/
theorem C14_drawSystem_calls {τ : Type} (c : Constants) (loadTexture : String → τ)
    (es : List Entity) :
    (DrawSystem c loadTexture es).1 = es ∧
    (DrawSystem c loadTexture es).2 = es.filterMap (expectedDraw c loadTexture) ∧
    (DrawSystem c loadTexture es).2.length =
      es.countP (fun e => e.position.isSome && e.sprite.isSome) ∧
    (∀ e : Entity, (expectedDraw c loadTexture e).isSome =
      (e.position.isSome && e.sprite.isSome)) ∧
    (∀ (e : Entity) (p : PositionComponent) (s : SpriteComponent),
      e.position = some p → e.sprite = some s →
      expectedDraw c loadTexture e = some
        { texture := loadTexture s.sourceFile
          srcRect := { x := s.srcX, y := s.srcY, w := c.SPRITE_WIDTH, h := c.SPRITE_HEIGHT }
          destRect :=
            { x := p.destX, y := p.destY, w := c.INGAME_WIDTH, h := c.INGAME_HEIGHT } }) := by
  have hsome : ∀ e : Entity, (expectedDraw c loadTexture e).isSome =
      (e.position.isSome && e.sprite.isSome) := by
    intro e
    unfold expectedDraw
    cases e.position <;> cases e.sprite <;> rfl
  have hlist : (DrawSystem c loadTexture es).1 = es ∧
      (DrawSystem c loadTexture es).2 = es.filterMap (expectedDraw c loadTexture) := by
    induction es with
    | nil => exact ⟨rfl, rfl⟩
    | cons e rest ih =>
      unfold DrawSystem
      refine ⟨by rw [ih.1], ?_⟩
      dsimp only
      rw [ih.2, drawStep_eq_expectedDraw]
      cases h : expectedDraw c loadTexture e <;> simp [List.filterMap_cons, h]
  have hcount : ∀ l : List Entity, (l.filterMap (expectedDraw c loadTexture)).length =
      l.countP (fun e => e.position.isSome && e.sprite.isSome) := by
    intro l
    induction l with
    | nil => rfl
    | cons e rest ih =>
      have he := hsome e
      cases h : expectedDraw c loadTexture e with
      | none =>
        rw [h] at he
        rw [List.filterMap_cons, h, List.countP_cons, ← he, ih]
        simp
      | some d =>
        rw [h] at he
        rw [List.filterMap_cons, h, List.countP_cons, ← he, List.length_cons, ih]
        simp
  refine ⟨hlist.1, hlist.2, ?_, hsome, ?_⟩
  · rw [hlist.2]
    exact hcount es
  · intro e p s hp hs
    simp [expectedDraw, hp, hs]

theorem C14_drawSystem_calls_witness :
    (DrawSystem ⟨800, 640, 32, 32, 32, 32, 64, 64, 32, 0, 96⟩ (fun f => f.length)
      [⟨some ⟨5, 6, 0, 0⟩, none, none, none⟩,
       ⟨some ⟨70, 80, 1, 0⟩, some ⟨"hero.png", 32, 64⟩, none, some ⟨true⟩⟩,
       ⟨none, some ⟨"tree.png", 0, 0⟩, none, none⟩]).1 =
      [⟨some ⟨5, 6, 0, 0⟩, none, none, none⟩,
       ⟨some ⟨70, 80, 1, 0⟩, some ⟨"hero.png", 32, 64⟩, none, some ⟨true⟩⟩,
       ⟨none, some ⟨"tree.png", 0, 0⟩, none, none⟩] ∧
    (DrawSystem ⟨800, 640, 32, 32, 32, 32, 64, 64, 32, 0, 96⟩ (fun f => f.length)
      [⟨some ⟨5, 6, 0, 0⟩, none, none, none⟩,
       ⟨some ⟨70, 80, 1, 0⟩, some ⟨"hero.png", 32, 64⟩, none, some ⟨true⟩⟩,
       ⟨none, some ⟨"tree.png", 0, 0⟩, none, none⟩]).2 =
      [⟨8, ⟨32, 64, 32, 32⟩, ⟨70, 80, 32, 64⟩⟩] :=
  ⟨(C14_drawSystem_calls ⟨800, 640, 32, 32, 32, 32, 64, 64, 32, 0, 96⟩ (fun f => f.length)
    [⟨some ⟨5, 6, 0, 0⟩, none, none, none⟩,
     ⟨some ⟨70, 80, 1, 0⟩, some ⟨"hero.png", 32, 64⟩, none, some ⟨true⟩⟩,
     ⟨none, some ⟨"tree.png", 0, 0⟩, none, none⟩]).1, by decide⟩

/-! Frame timing -/

theorem animateInt32_eq_animate (c : Constants) (pos : PositionComponent)
    (s : SpriteComponent) (a : AnimationComponent)
    (h1 : IsInt32 (c.SPRITE_WIDTH * a.deltaFrame))
    (h2 : IsInt32 (s.srcX + c.SPRITE_WIDTH * a.deltaFrame))
    (h3 : IsInt32 (a.frameCount + 1)) :
    animateInt32 c pos s a = animate c pos s a := by
  obtain ⟨sf, x, y⟩ := s
  obtain ⟨fc, d⟩ := a
  have e1 := wrapInt32_of_isInt32 _ h1
  have e2 := wrapInt32_of_isInt32 _ h2
  have e3 := wrapInt32_of_isInt32 _ h3
  have e4 : wrapInt32 1 = 1 := by decide
  simp only at e1 e2 e3
  by_cases hidle : pos.deltaX = 0 ∧ pos.deltaY = 0
  · obtain ⟨hx, hy⟩ := hidle
    simp [animateInt32, animate, hx, hy, e4]
  · simp only [animateInt32, animate, if_neg hidle]
    by_cases h9 : fc = 9
    · simp only [if_pos h9]
      split_ifs <;> simp_all
    · simp only [if_neg h9, e3]

theorem getPositionFromCoords_of_nonneg (c : Constants) (hT : 0 < c.TILE_SIZE) (x y : Int)
    (hx : 0 ≤ x) (hy : 0 ≤ y) :
    getPositionFromCoords c x y =
      (x / c.TILE_SIZE + 1) + (y / c.TILE_SIZE) * (Int.tdiv c.GAME_WIDTH c.TILE_SIZE) := by
  unfold getPositionFromCoords
  rw [Int.tdiv_eq_ediv hx (le_of_lt hT), Int.tdiv_eq_ediv hy (le_of_lt hT)]

theorem sampledCorners_nonneg (c : Constants) (hIW : 1 ≤ c.INGAME_WIDTH)
    (hIH : 0 ≤ c.INGAME_HEIGHT) (p : PositionComponent) (hx0 : 0 ≤ p.destX)
    (hy0 : 0 ≤ p.destY) : ∀ pt ∈ sampledCorners c p, 0 ≤ pt.1 ∧ 0 ≤ pt.2 := by
  have hhalf : 0 ≤ Int.tdiv c.INGAME_HEIGHT 2 := by
    rw [Int.tdiv_eq_ediv hIH (by decide)]
    omega
  simp only [sampledCorners, List.forall_mem_cons, List.not_mem_nil, false_imp_iff,
    implies_true, and_true]
  generalize Int.tdiv c.INGAME_HEIGHT 2 = half at hhalf ⊢
  omega

/-- C16: with TILE_SIZE > 0, for all x >= 0 and y >= 0 `getPositionFromCoords` x y is
1 + floor(x / TILE_SIZE) + floor(y / TILE_SIZE) * (GAME_WIDTH / TILE_SIZE), the 1-based
row-major tile index, and (0, 0) maps to 1; and, the in-game cell having INGAME_WIDTH >= 1
and INGAME_HEIGHT >= 0, every point that `CollisionSystem` samples for a position that
passed its tests destX >= 0 and destY >= 0 has non-negative coordinates, so that the
truncating division applied to them is the floor division. -/
theorem C16_tile_index_floor_division (c : Constants) (hT : 0 < c.TILE_SIZE) :
    (∀ x y : Int, 0 ≤ x → 0 ≤ y →
      getPositionFromCoords c x y =
        1 + Int.fdiv x c.TILE_SIZE +
          Int.fdiv y c.TILE_SIZE * (Int.tdiv c.GAME_WIDTH c.TILE_SIZE)) ∧
    getPositionFromCoords c 0 0 = 1 ∧
    (1 ≤ c.INGAME_WIDTH → 0 ≤ c.INGAME_HEIGHT →
      ∀ p : PositionComponent, 0 ≤ p.destX → 0 ≤ p.destY →
        ∀ pt ∈ sampledCorners c p,
          0 ≤ pt.1 ∧ 0 ≤ pt.2 ∧
          Int.tdiv pt.1 c.TILE_SIZE = Int.fdiv pt.1 c.TILE_SIZE ∧
          Int.tdiv pt.2 c.TILE_SIZE = Int.fdiv pt.2 c.TILE_SIZE) := by
  have hT0 : 0 ≤ c.TILE_SIZE := le_of_lt hT
  refine ⟨?_, ?_, ?_⟩
  · intro x y hx hy
    rw [getPositionFromCoords_of_nonneg c hT x y hx hy, Int.fdiv_eq_ediv x hT0,
      Int.fdiv_eq_ediv y hT0]
    omega
  · rw [getPositionFromCoords_of_nonneg c hT 0 0 (le_refl 0) (le_refl 0)]
    simp
  · intro hIW hIH p hx0 hy0 pt hpt
    obtain ⟨h1, h2⟩ := sampledCorners_nonneg c hIW hIH p hx0 hy0 pt hpt
    refine ⟨h1, h2, ?_, ?_⟩
    · rw [Int.tdiv_eq_ediv h1 hT0, Int.fdiv_eq_ediv pt.1 hT0]
    · rw [Int.tdiv_eq_ediv h2 hT0, Int.fdiv_eq_ediv pt.2 hT0]

theorem C16_tile_index_floor_division_witness :
    (0 : Int) < 32 ∧
    getPositionFromCoords ⟨800, 640, 32, 32, 32, 32, 64, 64, 32, 0, 96⟩ 70 100 =
      1 + Int.fdiv 70 32 + Int.fdiv 100 32 * (Int.tdiv 800 32) ∧
    getPositionFromCoords ⟨800, 640, 32, 32, 32, 32, 64, 64, 32, 0, 96⟩ 70 100 = 78 ∧
    ∀ pt ∈ sampledCorners ⟨800, 640, 32, 32, 32, 32, 64, 64, 32, 0, 96⟩ ⟨0, 0, 0, 0⟩,
      0 ≤ pt.1 ∧ 0 ≤ pt.2 ∧ Int.tdiv pt.1 32 = Int.fdiv pt.1 32 ∧
        Int.tdiv pt.2 32 = Int.fdiv pt.2 32 :=
  ⟨by decide,
    (C16_tile_index_floor_division ⟨800, 640, 32, 32, 32, 32, 64, 64, 32, 0, 96⟩
      (by decide)).1 70 100 (by decide) (by decide),
    by decide,
    (C16_tile_index_floor_division ⟨800, 640, 32, 32, 32, 32, 64, 64, 32, 0, 96⟩
      (by decide)).2.2 (by decide) (by decide) ⟨0, 0, 0, 0⟩ (by decide) (by decide)⟩

theorem index_inj (a a' b b' cols : Int) (ha0 : 0 ≤ a) (ha : a < cols) (ha0' : 0 ≤ a')
    (ha' : a' < cols) :
    (a + 1) + b * cols = (a' + 1) + b' * cols ↔ a = a' ∧ b = b' := by
  constructor
  · intro h
    have hcols : cols ≠ 0 := by omega
    have e1 : (a + b * cols) % cols = a := by
      rw [Int.add_mul_emod_self, Int.emod_eq_of_lt ha0 ha]
    have e2 : (a' + b' * cols) % cols = a' := by
      rw [Int.add_mul_emod_self, Int.emod_eq_of_lt ha0' ha']
    have h' : a + b * cols = a' + b' * cols := by omega
    have haa : a = a' := by rw [← e1, ← e2, h']
    refine ⟨haa, ?_⟩
    have hb : b * cols = b' * cols := by omega
    exact mul_right_cancel₀ hcols hb
  · rintro ⟨rfl, rfl⟩
    rfl

/-- C18: when TILE_SIZE > 0 divides GAME_WIDTH, for points (x, y) and (x', y') with
0 <= x, x' < GAME_WIDTH and y, y' >= 0, `getPositionFromCoords` gives the same result
exactly when x / TILE_SIZE = x' / TILE_SIZE and y / TILE_SIZE = y' / TILE_SIZE. -/
theorem C18_tile_index_faithful (c : Constants) (hT : 0 < c.TILE_SIZE)
    (hGW : c.TILE_SIZE ∣ c.GAME_WIDTH) (x y x' y' : Int)
    (hx0 : 0 ≤ x) (hx : x < c.GAME_WIDTH) (hx0' : 0 ≤ x') (hx' : x' < c.GAME_WIDTH)
    (hy0 : 0 ≤ y) (hy0' : 0 ≤ y') :
    getPositionFromCoords c x y = getPositionFromCoords c x' y' ↔
      (Int.tdiv x c.TILE_SIZE = Int.tdiv x' c.TILE_SIZE ∧
        Int.tdiv y c.TILE_SIZE = Int.tdiv y' c.TILE_SIZE) := by
  have hT0 : 0 ≤ c.TILE_SIZE := le_of_lt hT
  rw [getPositionFromCoords_of_nonneg c hT x y hx0 hy0,
    getPositionFromCoords_of_nonneg c hT x' y' hx0' hy0',
    Int.tdiv_eq_ediv hx0 hT0, Int.tdiv_eq_ediv hx0' hT0, Int.tdiv_eq_ediv hy0 hT0,
    Int.tdiv_eq_ediv hy0' hT0, Int.tdiv_eq_ediv (by omega) hT0]
  apply index_inj
  · exact Int.ediv_nonneg hx0 hT0
  · apply Int.ediv_lt_of_lt_mul hT
    rw [Int.ediv_mul_cancel hGW]
    exact hx
  · exact Int.ediv_nonneg hx0' hT0
  · apply Int.ediv_lt_of_lt_mul hT
    rw [Int.ediv_mul_cancel hGW]
    exact hx'

theorem C18_tile_index_faithful_witness :
    ((0 : Int) < 32 ∧ (32 : Int) ∣ 800) ∧
    ((0 : Int) ≤ 70 ∧ (70 : Int) < 800 ∧ (0 : Int) ≤ 95 ∧ (95 : Int) < 800 ∧
      (0 : Int) ≤ 100 ∧ (0 : Int) ≤ 127) ∧
    (getPositionFromCoords ⟨800, 640, 32, 32, 32, 32, 64, 64, 32, 0, 96⟩ 70 100 =
        getPositionFromCoords ⟨800, 640, 32, 32, 32, 32, 64, 64, 32, 0, 96⟩ 95 127 ↔
      (Int.tdiv 70 32 = Int.tdiv 95 32 ∧ Int.tdiv 100 32 = Int.tdiv 127 32)) :=
  ⟨by decide, by decide,
    C18_tile_index_faithful ⟨800, 640, 32, 32, 32, 32, 64, 64, 32, 0, 96⟩ (by decide)
      (by decide) 70 100 95 127 (by decide) (by decide) (by decide) (by decide) (by decide)
      (by decide)⟩

/-! Fields written by each system -/

theorem bind_getElem?_map {β : Type} (f : Entity → Entity) (g : Entity → Option β)
    (h : ∀ e, g (f e) = g e) (es : List Entity) (i : Nat) :
    (es.map f)[i]?.bind g = es[i]?.bind g := by
  rw [List.getElem?_map]
  cases es[i]? with
  | none => rfl
  | some e => exact h e

theorem movePosition_delta (c : Constants) (tilemap : TileMap) (p : PositionComponent) :
    (movePosition c tilemap p).deltaX = p.deltaX ∧
      (movePosition c tilemap p).deltaY = p.deltaY := by
  rw [movePosition_eq]
  split_ifs
  · exact ⟨rfl, rfl⟩
  · exact ⟨rfl, rfl⟩

theorem positionStep_others (c : Constants) (tilemap : TileMap) (e : Entity) :
    (positionStep c tilemap e).sprite = e.sprite ∧
      (positionStep c tilemap e).animation = e.animation ∧
      (positionStep c tilemap e).control = e.control := by
  unfold positionStep
  cases e.position <;> exact ⟨rfl, rfl, rfl⟩

theorem animationStep_position (c : Constants) (e : Entity) :
    (animationStep c e).position = e.position := by
  unfold animationStep
  split <;> rfl

theorem controlStep_dest (k : KeyCodes) (keyPressed : Int) (e : Entity) :
    (controlStep k keyPressed e).position.map (fun p => (p.destX, p.destY)) =
      e.position.map (fun p => (p.destX, p.destY)) := by
  unfold controlStep
  split
  · rename_i positionCom controlCom hp hc
    split_ifs
    · rw [hp]
      simp [(steer_dest k keyPressed positionCom).1, (steer_dest k keyPressed positionCom).2]
    · rfl
  · rfl

theorem animationStep_idle_srcY (c : Constants) (e : Entity) (pos : PositionComponent)
    (s : SpriteComponent) (hp : e.position = some pos) (hs : e.sprite = some s)
    (hdx : pos.deltaX = 0) (hdy : pos.deltaY = 0) :
    (animationStep c e).sprite.map SpriteComponent.srcY = some s.srcY := by
  cases ha : e.animation with
  | none =>
    rw [animationStep_of_missing c e (Or.inr (Or.inr ha)), hs]
    rfl
  | some a =>
    simp [animationStep, hp, hs, ha, animate_idle c pos s a hdx hdy]

/-- C19: `PositionSystem` changes no entity's deltaX or deltaY, nor its sprite, animation
or control component; `ControlSystem` changes no entity's destX or destY;
`AnimationSystem` changes no position component; and for an entity with velocity (0, 0)
`AnimationSystem` leaves srcY as it was. -/
theorem C19_systems_write_own_fields (c : Constants) (tilemap : TileMap) (k : KeyCodes)
    (keyPressed : Int) (es : List Entity) (i : Nat) :
    ((positionAt (PositionSystem c tilemap es) i).map (fun p => (p.deltaX, p.deltaY)) =
      (positionAt es i).map (fun p => (p.deltaX, p.deltaY))) ∧
    spriteAt (PositionSystem c tilemap es) i = spriteAt es i ∧
    animationAt (PositionSystem c tilemap es) i = animationAt es i ∧
    controlAt (PositionSystem c tilemap es) i = controlAt es i ∧
    ((positionAt (ControlSystem k keyPressed es) i).map (fun p => (p.destX, p.destY)) =
      (positionAt es i).map (fun p => (p.destX, p.destY))) ∧
    positionAt (AnimationSystem c es) i = positionAt es i ∧
    (∀ (pos : PositionComponent) (s : SpriteComponent),
      positionAt es i = some pos → spriteAt es i = some s →
      pos.deltaX = 0 → pos.deltaY = 0 →
      (spriteAt (AnimationSystem c es) i).map SpriteComponent.srcY = some s.srcY) := by
  refine ⟨?_, ?_, ?_, ?_, ?_, ?_, ?_⟩
  · rw [positionAt_PositionSystem]
    cases positionAt es i with
    | none => rfl
    | some p =>
      simp [(movePosition_delta c tilemap p).1, (movePosition_delta c tilemap p).2]
  · exact bind_getElem?_map _ Entity.sprite (fun e => (positionStep_others c tilemap e).1) es i
  · exact bind_getElem?_map _ Entity.animation
      (fun e => (positionStep_others c tilemap e).2.1) es i
  · exact bind_getElem?_map _ Entity.control
      (fun e => (positionStep_others c tilemap e).2.2) es i
  · unfold positionAt ControlSystem
    rw [List.getElem?_map]
    cases es[i]? with
    | none => rfl
    | some e => exact controlStep_dest k keyPressed e
  · exact bind_getElem?_map _ Entity.position (fun e => animationStep_position c e) es i
  · intro pos s hp hs hdx hdy
    unfold positionAt spriteAt AnimationSystem at *
    rw [List.getElem?_map]
    cases he : es[i]? with
    | none => rw [he] at hp; exact Option.noConfusion hp
    | some e =>
      rw [he] at hp hs
      exact animationStep_idle_srcY c e pos s hp hs hdx hdy

theorem C19_systems_write_own_fields_witness :
    (spriteAt (AnimationSystem ⟨800, 640, 32, 32, 32, 32, 64, 64, 32, 0, 96⟩
      [⟨some ⟨5, 6, 0, 0⟩, some ⟨"hero.png", 64, 96⟩, some ⟨9, -1⟩, none⟩]) 0).map
      SpriteComponent.srcY = some 96 :=
  (C19_systems_write_own_fields ⟨800, 640, 32, 32, 32, 32, 64, 64, 32, 0, 96⟩
    ⟨fun _ => [1], [7]⟩
    ⟨119, 1073741906, 97, 1073741904, 115, 1073741905, 100, 1073741903⟩ 119
    [⟨some ⟨5, 6, 0, 0⟩, some ⟨"hero.png", 64, 96⟩, some ⟨9, -1⟩, none⟩] 0).2.2.2.2.2.2
    ⟨5, 6, 0, 0⟩ ⟨"hero.png", 64, 96⟩ rfl rfl rfl rfl

end RPG
